import Mathlib

/-!
Verification of the fail-fast checkout gateway
(`src/fail-fast/api-service/main.go`): the circuit-breaker settings, the
metrics bookkeeping, the percentile computation and the HTTP outcome
classification, embedded shallowly in Lean.

Modelling conventions:
* Go `int` / `uint32` counters hold only non-negative values on every
  reachable state, so they are embedded as `Nat`.
* `time.Duration` is a count of nanoseconds, non-negative for every measured
  latency, embedded as `Nat`; Go's `int64` division on durations truncates,
  which on non-negative values coincides with `Nat` division.
* `float64` arithmetic in the sources only compares small exact ratios
  (`failures/requests ≥ 0.5`, `len*percentile`), far from any rounding
  boundary at realistic sizes, so it is embedded as exact `ℚ` arithmetic.
* The breaker state machine itself lives in the external `sony/gobreaker`
  dependency, whose source is not under `src/`; those parts are modelled
  from the spec and marked `Modelled from the spec:` in their doc comments.
  The `ReadyToTrip` predicate, the settings constants and everything in the
  metrics/handler path are translated directly from `main.go`.
-/

/-- Circuit-breaker state (`gobreaker.State`): CLOSED, OPEN, HALF_OPEN. -/
inductive CBState where
  | Closed
  | Open
  | HalfOpen
deriving DecidableEq, Repr

/-- The struct `gobreaker.Counts`: the request/outcome counters the breaker feeds to
`ReadyToTrip`. -/
structure Counts where
  Requests : Nat
  TotalSuccesses : Nat
  TotalFailures : Nat
  ConsecutiveSuccesses : Nat
  ConsecutiveFailures : Nat
deriving DecidableEq, Repr

def Counts.zero : Counts :=
  { Requests := 0, TotalSuccesses := 0, TotalFailures := 0,
    ConsecutiveSuccesses := 0, ConsecutiveFailures := 0 }

/-- Modelled from the spec: the recorder increments `window_requests` on each
admitted call (gobreaker's `Counts.onRequest`, not under `src/`). -/
def Counts.onRequest (c : Counts) : Counts :=
  { c with Requests := c.Requests + 1 }

/-- Modelled from the spec: on success, reset `consecutive_failures` to 0
(gobreaker's `Counts.onSuccess`, not under `src/`). -/
def Counts.onSuccess (c : Counts) : Counts :=
  { c with TotalSuccesses := c.TotalSuccesses + 1,
           ConsecutiveSuccesses := c.ConsecutiveSuccesses + 1,
           ConsecutiveFailures := 0 }

/-- Modelled from the spec: on each failure, increment `consecutive_failures`
and the windowed failure count (gobreaker's `Counts.onFailure`, not under
`src/`). -/
def Counts.onFailure (c : Counts) : Counts :=
  { c with TotalFailures := c.TotalFailures + 1,
           ConsecutiveFailures := c.ConsecutiveFailures + 1,
           ConsecutiveSuccesses := 0 }

/-- Function `ReadyToTrip` from `main.go` lines 45-55: trip on 3 consecutive failures,
or on a ≥ 50% failure ratio once the window holds at least 5 requests.
Go's `float64(TotalFailures)/float64(Requests) >= 0.5` is embedded as the
exact rational comparison. -/
def readyToTrip (counts : Counts) : Bool :=
  if counts.ConsecutiveFailures ≥ 3 then
    true
  else if counts.Requests ≥ 5 then
    decide ((counts.TotalFailures : ℚ) / (counts.Requests : ℚ) ≥ (0.5 : ℚ))
  else
    false

/-- Setting `MaxRequests: 2` from the `gobreaker.Settings` literal, `main.go` line 42. -/
def maxRequests : Nat := 2

/-- Setting `Timeout: 10 * time.Second` from the `gobreaker.Settings` literal,
`main.go` line 44 (in seconds). -/
def openTimeout : Nat := 10

/-- The error value `cb.Execute` hands back to `handleCheckout`:
`noErr` for nil, `errOpenState` for `gobreaker.ErrOpenState`, `otherErr` for
any other non-nil error (downstream failure, transport failure, timeout). -/
inductive ErrVal where
  | noErr
  | errOpenState
  | otherErr
deriving DecidableEq, Repr

/-- The whole breaker instance: current state, counters, and the time OPEN
was entered (seconds). -/
structure Breaker where
  state : CBState
  counts : Counts
  openedAt : Nat
deriving DecidableEq, Repr

def Breaker.initial : Breaker :=
  { state := CBState.Closed, counts := Counts.zero, openedAt := 0 }

/-- Outcome of the downstream call when it is actually invoked. -/
inductive CallOutcome where
  | success
  | failure
deriving DecidableEq, Repr

/-- Modelled from the spec: `cb.Execute` of the external gobreaker library
(not under `src/`). Per spec §4.1/§4.2/§9: the OPEN→HALF_OPEN transition is a
lazily-evaluated timeout check at admission time; in OPEN (timeout not yet
elapsed) and in HALF_OPEN with the probe budget exhausted the call is denied
with the distinguished circuit-open signal and the downstream call is not
invoked; a probe success closes the circuit (counters reset); a probe failure
or a CLOSED-state failure satisfying `ReadyToTrip` (from `src`) reopens it.
`nCalls` counts downstream call invocations; `now` is the current time in
seconds. Returns (error handed to the caller, new breaker, new `nCalls`). -/
def execute (b : Breaker) (now : Nat) (call : CallOutcome) (nCalls : Nat) :
    ErrVal × Breaker × Nat :=
  let b :=
    if b.state = CBState.Open ∧ now - b.openedAt ≥ openTimeout then
      { b with state := CBState.HalfOpen, counts := Counts.zero }
    else b
  if b.state = CBState.Open then
    (ErrVal.errOpenState, b, nCalls)
  else if b.state = CBState.HalfOpen then
    if b.counts.Requests ≥ maxRequests then
      (ErrVal.errOpenState, b, nCalls)
    else
      match call with
      | CallOutcome.success =>
          (ErrVal.noErr,
           { state := CBState.Closed, counts := Counts.zero,
             openedAt := b.openedAt }, nCalls + 1)
      | CallOutcome.failure =>
          (ErrVal.otherErr,
           { state := CBState.Open, counts := Counts.zero, openedAt := now },
           nCalls + 1)
  else
    let c := b.counts.onRequest
    match call with
    | CallOutcome.success =>
        (ErrVal.noErr, { b with counts := c.onSuccess }, nCalls + 1)
    | CallOutcome.failure =>
        let c := c.onFailure
        if readyToTrip c then
          (ErrVal.otherErr,
           { state := CBState.Open, counts := Counts.zero, openedAt := now },
           nCalls + 1)
        else
          (ErrVal.otherErr, { b with counts := c }, nCalls + 1)

/-- Feed a list of downstream outcomes through `execute` starting from the
initial (CLOSED) breaker, all at time 0; returns the final breaker and the
number of downstream invocations. -/
def runOutcomes (os : List CallOutcome) : Breaker × Nat :=
  os.foldl (fun st o => let r := execute st.1 0 o st.2; (r.2.1, r.2.2)) (Breaker.initial, 0)

/-- The `Metrics` struct from `main.go` lines 23-31 (without the mutex, which
only guards the updates modelled here as atomic steps). -/
structure Metrics where
  TotalRequests : Nat
  SuccessfulRequests : Nat
  FailedRequests : Nat
  CircuitOpenRejects : Nat
  TotalLatency : Nat
  LatencyHistory : List Nat
deriving DecidableEq, Repr

def Metrics.zero : Metrics :=
  { TotalRequests := 0, SuccessfulRequests := 0, FailedRequests := 0,
    CircuitOpenRejects := 0, TotalLatency := 0, LatencyHistory := [] }

/-- Function `updateMetrics` from `main.go` lines 171-187: every attempt bumps the
total, the latency sum and the latency history; a non-nil error bumps
`FailedRequests` and, when the breaker state is OPEN, also
`CircuitOpenRejects`; a nil error bumps `SuccessfulRequests`. -/
def updateMetrics (m : Metrics) (err : ErrVal) (latency : Nat)
    (state : CBState) : Metrics :=
  let m :=
    { m with TotalRequests := m.TotalRequests + 1,
             TotalLatency := m.TotalLatency + latency,
             LatencyHistory := m.LatencyHistory ++ [latency] }
  if err ≠ ErrVal.noErr then
    let m := { m with FailedRequests := m.FailedRequests + 1 }
    if state = CBState.Open then
      { m with CircuitOpenRejects := m.CircuitOpenRejects + 1 }
    else m
  else
    { m with SuccessfulRequests := m.SuccessfulRequests + 1 }

/-- One recorded attempt as `handleCheckout` passes it to `updateMetrics`. -/
structure Attempt where
  err : ErrVal
  latency : Nat
  state : CBState
deriving DecidableEq, Repr

/-- Fold a list of attempts through `updateMetrics` from the zero-valued
initial `Metrics`. -/
def applyAttempts (as : List Attempt) : Metrics :=
  as.foldl (fun m a => updateMetrics m a.err a.latency a.state) Metrics.zero

/-- The HTTP status `handleCheckout` writes (`main.go` lines 120-154):
`gobreaker.ErrOpenState` maps to 503 Service Unavailable, any other non-nil
error to 502 Bad Gateway, success to 200. -/
def handleCheckoutStatus (err : ErrVal) : Nat :=
  if err = ErrVal.errOpenState then 503
  else if err ≠ ErrVal.noErr then 502
  else 200

/-- Result of the downstream HTTP GET in `callPaymentService`: either the
transport fails outright, or a response with some status code arrives. -/
inductive TransportResult where
  | transportFailure
  | response (statusCode : Nat)
deriving DecidableEq, Repr

/-- `callPaymentService` from `main.go` lines 158-168: a transport error is
returned as a failure; a response with status ≠ 200 (`http.StatusOK`) is
turned into a `service error`; only status 200 is a success. -/
def callPaymentService (r : TransportResult) : Except String Nat :=
  match r with
  | TransportResult.transportFailure => Except.error "transport failure"
  | TransportResult.response code =>
      if code ≠ 200 then Except.error "service error"
      else Except.ok code

/-- A code is `2xx-equivalent` in the spec's words: a status code in [200, 300). -/
def is2xx (code : Nat) : Bool :=
  200 ≤ code ∧ code < 300

/-- Function `calculatePercentile` from `main.go` lines 255-272, with mutation made
explicit: the Go code copies the slice and sorts the copy in place, so it
returns the percentile value together with the caller's slice as it is left
afterwards (unchanged, because only the copy was sorted). `percentile` is the
fraction passed at the call sites (0.50, 0.95, 0.99); `int(float64(n) * p)`
truncates the exact product, embedded as the rational floor. -/
def calculatePercentileRun (latencies : List Nat) (percentile : ℚ) :
    Nat × List Nat :=
  if latencies = [] then
    (0, latencies)
  else
    let sorted := List.insertionSort (fun a b => a ≤ b) latencies
    let index := (((sorted.length : ℚ) * percentile).floor).toNat
    let index := if index ≥ sorted.length then sorted.length - 1 else index
    (sorted.getD index 0, latencies)

/-- The percentile value alone. -/
def calculatePercentile (latencies : List Nat) (percentile : ℚ) : Nat :=
  (calculatePercentileRun latencies percentile).1

/-- The response fields `handleMetrics` computes from the `Metrics` state
(`main.go` lines 197-253); breaker state/counters and the static strings are
omitted as they are not computed from `Metrics`. -/
structure Snapshot where
  TotalRequestsOut : Nat
  SuccessCount : Nat
  FailureCount : Nat
  FastFails : Nat
  SuccessRate : ℚ
  ErrorRate : ℚ
  AvgLatency : Nat
  MedianLatency : Nat
  P95Latency : Nat
  P99Latency : Nat
deriving DecidableEq, Repr

/-- Function `handleMetrics` from `main.go` lines 197-253 as a state transformer:
rates and average default to 0 and are only computed when
`TotalRequests > 0`; the three percentiles are taken over the latency
history, which each `calculatePercentileRun` hands back (unchanged);
the returned `Metrics` is the shared state as the handler leaves it. -/
def handleMetricsRun (m : Metrics) : Snapshot × Metrics :=
  let avgLatency := if m.TotalRequests > 0 then m.TotalLatency / m.TotalRequests else 0
  let successRate :=
    if m.TotalRequests > 0 then
      (m.SuccessfulRequests : ℚ) / (m.TotalRequests : ℚ) * 100
    else 0
  let errorRate := if m.TotalRequests > 0 then 100 - successRate else 0
  let p50 := calculatePercentileRun m.LatencyHistory (0.50 : ℚ)
  let p95 := calculatePercentileRun p50.2 (0.95 : ℚ)
  let p99 := calculatePercentileRun p95.2 (0.99 : ℚ)
  ({ TotalRequestsOut := m.TotalRequests,
     SuccessCount := m.SuccessfulRequests,
     FailureCount := m.FailedRequests,
     FastFails := m.CircuitOpenRejects,
     SuccessRate := successRate,
     ErrorRate := errorRate,
     AvgLatency := avgLatency,
     MedianLatency := p50.1,
     P95Latency := p95.1,
     P99Latency := p99.1 },
   { m with LatencyHistory := p99.2 })

/-- A downstream call result counts as a success exactly when
`callPaymentService` returned a non-error value. -/
def isSuccess (r : Except String Nat) : Bool :=
  match r with
  | Except.ok _ => true
  | Except.error _ => false

/-- A breaker that entered OPEN at time 0, used as a concrete input by the
witnesses. -/
def openBreaker : Breaker :=
  { state := CBState.Open, counts := Counts.zero, openedAt := 0 }

/-- The invariants of the `Metrics` struct maintained by `updateMetrics`:
successes and failures partition the total, the latency history has one entry
per request, and circuit-open rejections are a subset of the failures. -/
def MetricsInv (m : Metrics) : Prop :=
  m.SuccessfulRequests + m.FailedRequests = m.TotalRequests
  ∧ m.LatencyHistory.length = m.TotalRequests
  ∧ m.CircuitOpenRejects ≤ m.FailedRequests

instance : DecidablePred MetricsInv := fun m => by
  unfold MetricsInv; infer_instance

lemma metricsInv_zero : MetricsInv Metrics.zero := by
  refine ⟨rfl, rfl, le_refl 0⟩

lemma metricsInv_update (m : Metrics) (err : ErrVal) (l : Nat) (st : CBState)
    (h : MetricsInv m) : MetricsInv (updateMetrics m err l st) := by
  obtain ⟨h1, h2, h3⟩ := h
  unfold updateMetrics MetricsInv
  split_ifs <;> simp_all <;> omega

lemma metricsInv_applyAttempts (as : List Attempt) :
    MetricsInv (applyAttempts as) := by
  have key : ∀ (as : List Attempt) (m : Metrics), MetricsInv m →
      MetricsInv (as.foldl (fun m a => updateMetrics m a.err a.latency a.state) m) := by
    intro as
    induction as with
    | nil => intro m hm; exact hm
    | cons a as ih =>
        intro m hm
        exact ih _ (metricsInv_update m a.err a.latency a.state hm)
  exact key as Metrics.zero metricsInv_zero

lemma calculatePercentileRun_snd (l : List Nat) (p : ℚ) :
    (calculatePercentileRun l p).2 = l := by
  unfold calculatePercentileRun
  split <;> rfl

/-- C10: every call to `updateMetrics` preserves the invariants
`TotalRequests = SuccessfulRequests + FailedRequests`,
`len(LatencyHistory) = TotalRequests` and
`CircuitOpenRejects ≤ FailedRequests`, for every error value, latency and
breaker state, and all three hold of the zero-valued initial `Metrics`. -/
theorem updateMetrics_preserves_invariants (m : Metrics) (err : ErrVal)
    (l : Nat) (st : CBState) (h : MetricsInv m) :
    MetricsInv (updateMetrics m err l st) ∧ MetricsInv Metrics.zero :=
  ⟨metricsInv_update m err l st h, metricsInv_zero⟩

/-- Witness for C10 at a concrete input: one successful attempt of latency 3
recorded from the zero metrics. -/
theorem updateMetrics_preserves_invariants_witness :
    MetricsInv (updateMetrics Metrics.zero ErrVal.noErr 3 CBState.Closed)
    ∧ MetricsInv Metrics.zero :=
  updateMetrics_preserves_invariants Metrics.zero ErrVal.noErr 3
    CBState.Closed (by decide)

/-- C2 fails on the code: after a single circuit-open rejection (recorded
with a non-nil error while the breaker state is OPEN),
`success_count + failure_count + rejected_count = 0 + 1 + 1 = 2 ≠ 1 = total`,
because `updateMetrics` counts the rejection in `FailedRequests` as well as
in `CircuitOpenRejects`. -/
theorem updateMetrics_counts_not_partition :
    ¬ ((updateMetrics Metrics.zero ErrVal.errOpenState 7 CBState.Open).SuccessfulRequests
        + (updateMetrics Metrics.zero ErrVal.errOpenState 7 CBState.Open).FailedRequests
        + (updateMetrics Metrics.zero ErrVal.errOpenState 7 CBState.Open).CircuitOpenRejects
        = (updateMetrics Metrics.zero ErrVal.errOpenState 7 CBState.Open).TotalRequests) := by
  decide

/-- C2 as amended: for every sequence of recorded attempts,
`success_count + failure_count = total` and
`rejected_count ≤ failure_count`; a circuit-open rejection is counted in
both `FailedRequests` and `CircuitOpenRejects` (never in `SuccessfulRequests`). -/
theorem updateMetrics_counts_amended :
    (∀ as : List Attempt,
      (applyAttempts as).SuccessfulRequests + (applyAttempts as).FailedRequests
        = (applyAttempts as).TotalRequests
      ∧ (applyAttempts as).CircuitOpenRejects ≤ (applyAttempts as).FailedRequests)
    ∧ (∀ (m : Metrics) (l : Nat),
      (updateMetrics m ErrVal.errOpenState l CBState.Open).FailedRequests
        = m.FailedRequests + 1
      ∧ (updateMetrics m ErrVal.errOpenState l CBState.Open).CircuitOpenRejects
        = m.CircuitOpenRejects + 1
      ∧ (updateMetrics m ErrVal.errOpenState l CBState.Open).SuccessfulRequests
        = m.SuccessfulRequests) := by
  constructor
  · intro as
    obtain ⟨h1, _, h3⟩ := metricsInv_applyAttempts as
    exact ⟨h1, h3⟩
  · intro m l
    simp [updateMetrics]

/-- C3 fails on the code: a circuit-open rejection of latency 5 recorded from
the zero metrics changes both `TotalLatency` (0 to 5) and `LatencyHistory`
([] to [5]), because `updateMetrics` updates the latency counters for every
attempt, rejected ones included. -/
theorem rejected_attempt_changes_latency_counters :
    ¬ ((updateMetrics Metrics.zero ErrVal.errOpenState 5 CBState.Open).TotalLatency
        = Metrics.zero.TotalLatency
      ∧ (updateMetrics Metrics.zero ErrVal.errOpenState 5 CBState.Open).LatencyHistory
        = Metrics.zero.LatencyHistory) := by
  decide

/-- C3 as amended: a rejected attempt is recorded like any other attempt:
its measured latency is added to `TotalLatency` and appended to
`LatencyHistory`, it increments `FailedRequests` and `CircuitOpenRejects`,
and it leaves `SuccessfulRequests` unchanged. -/
theorem rejected_attempt_recorded_with_latency (m : Metrics) (l : Nat) :
    (updateMetrics m ErrVal.errOpenState l CBState.Open).TotalLatency
      = m.TotalLatency + l
    ∧ (updateMetrics m ErrVal.errOpenState l CBState.Open).LatencyHistory
      = m.LatencyHistory ++ [l]
    ∧ (updateMetrics m ErrVal.errOpenState l CBState.Open).FailedRequests
      = m.FailedRequests + 1
    ∧ (updateMetrics m ErrVal.errOpenState l CBState.Open).CircuitOpenRejects
      = m.CircuitOpenRejects + 1
    ∧ (updateMetrics m ErrVal.errOpenState l CBState.Open).SuccessfulRequests
      = m.SuccessfulRequests := by
  simp [updateMetrics]

/-- C7 fails on the code: status 201 is 2xx-equivalent, yet
`callPaymentService` classifies it as a failure, because the code compares
the status against `http.StatusOK` (exactly 200). -/
theorem status_201_is_2xx_but_fails :
    is2xx 201 = true
    ∧ isSuccess (callPaymentService (TransportResult.response 201)) = false := by
  decide

/-- C7 as amended: `callPaymentService` classifies a response as a success
exactly when its status code is exactly 200 (`http.StatusOK`); every other
status code — other 2xx codes included — and every transport failure is a
failure outcome. -/
theorem callPaymentService_success_iff_200 (r : TransportResult) :
    isSuccess (callPaymentService r) = true ↔ r = TransportResult.response 200 := by
  cases r with
  | transportFailure => simp [callPaymentService, isSuccess]
  | response code =>
      by_cases hc : code = 200 <;> simp [callPaymentService, isSuccess, hc]

/-- C8: the metrics snapshot reports `success_rate = 0` and average
latency 0 when the total request count is 0, and
`success_rate = success_count / total * 100` and average latency
`TotalLatency / total` (integer division, as Go divides `time.Duration`
values) when `total > 0`. -/
theorem handleMetrics_rates (m : Metrics) :
    (handleMetricsRun m).1.SuccessRate
      = (if m.TotalRequests = 0 then 0
          else (m.SuccessfulRequests : ℚ) / (m.TotalRequests : ℚ) * 100)
    ∧ (handleMetricsRun m).1.AvgLatency
      = (if m.TotalRequests = 0 then 0
          else m.TotalLatency / m.TotalRequests) := by
  rcases Nat.eq_zero_or_pos m.TotalRequests with h | h
  · simp [handleMetricsRun, h]
  · simp [handleMetricsRun, h, Nat.pos_iff_ne_zero.mp h]

/-- C9: the metrics snapshot is idempotent and side-effect free: the handler
leaves the `Metrics` state (in particular `LatencyHistory`) exactly as it
found it, because `calculatePercentile` sorts a copy, and running it again on
the resulting state yields the identical snapshot. -/
theorem handleMetrics_idempotent (m : Metrics) :
    (handleMetricsRun m).2 = m
    ∧ handleMetricsRun ((handleMetricsRun m).2) = handleMetricsRun m := by
  have h1 : (handleMetricsRun m).2 = m := by
    simp [handleMetricsRun, calculatePercentileRun_snd]
  exact ⟨h1, by rw [h1]⟩

lemma int_floor_eq_rat_floor (q : ℚ) : ⌊q⌋ = q.floor := by
  rw [Rat.floor_def, Rat.floor_def']

/-- C1: starting from CLOSED, `ReadyToTrip` trips exactly when
`consecutive_failures ≥ 3`, or when the window holds at least 5 requests and
the failure ratio is at least 0.5; the outcome sequence [fail, fail, fail]
trips after the 3rd failure and not earlier, and
[fail, success, fail, success, fail] trips after the 5th outcome (ratio
3/5 = 0.6 ≥ 0.5) and not earlier. -/
theorem readyToTrip_condition_and_scenarios :
    (∀ c : Counts, readyToTrip c = true ↔
      (3 ≤ c.ConsecutiveFailures
        ∨ (5 ≤ c.Requests
            ∧ (0.5 : ℚ) ≤ (c.TotalFailures : ℚ) / (c.Requests : ℚ))))
    ∧ (runOutcomes [CallOutcome.failure, CallOutcome.failure,
        CallOutcome.failure]).1.state = CBState.Open
    ∧ (runOutcomes [CallOutcome.failure]).1.state = CBState.Closed
    ∧ (runOutcomes [CallOutcome.failure, CallOutcome.failure]).1.state
        = CBState.Closed
    ∧ (runOutcomes [CallOutcome.failure, CallOutcome.success,
        CallOutcome.failure, CallOutcome.success,
        CallOutcome.failure]).1.state = CBState.Open
    ∧ (runOutcomes [CallOutcome.failure, CallOutcome.success]).1.state
        = CBState.Closed
    ∧ (runOutcomes [CallOutcome.failure, CallOutcome.success,
        CallOutcome.failure]).1.state = CBState.Closed
    ∧ (runOutcomes [CallOutcome.failure, CallOutcome.success,
        CallOutcome.failure, CallOutcome.success]).1.state
        = CBState.Closed := by
  refine ⟨fun c => ?_, ?_, ?_, ?_, ?_, ?_, ?_, ?_⟩
  · unfold readyToTrip
    split_ifs with h1 h2
    · simp [h1]
    · simp [h1, h2]
    · simp [h1, h2]
  all_goals
    simp [runOutcomes, execute, readyToTrip, Counts.onRequest, Counts.onSuccess,
          Counts.onFailure, Breaker.initial, Counts.zero, maxRequests,
          openTimeout] <;> norm_num

/-- C6: while the breaker is OPEN and `open_timeout` has not elapsed,
`Execute` never invokes the downstream call (the invocation count is
returned unchanged), leaves the breaker unchanged, and returns the
circuit-open error. -/
theorem execute_open_rejects (b : Breaker) (now : Nat) (call : CallOutcome)
    (n : Nat) (hs : b.state = CBState.Open)
    (ht : now - b.openedAt < openTimeout) :
    execute b now call n = (ErrVal.errOpenState, b, n) := by
  have h2 : ¬ (openTimeout ≤ now - b.openedAt) := not_le.mpr ht
  simp [execute, hs, h2]

/-- Witness for C6 at a concrete input: a breaker opened at time 0 queried at
time 5 (before the 10-second timeout) with 2 downstream calls already made. -/
theorem execute_open_rejects_witness :
    execute openBreaker 5 CallOutcome.failure 2
      = (ErrVal.errOpenState, openBreaker, 2) :=
  execute_open_rejects openBreaker 5 CallOutcome.failure 2 rfl (by decide)

/-- C4: whenever `Execute` denies admission — the downstream call count comes
back unchanged, which covers both the OPEN state and an exhausted HALF_OPEN
probe budget — the caller receives the distinguished circuit-open error, and
`handleCheckout` maps it to the 503 fast-fail response, not the 502 failure
response. -/
theorem execute_denied_is_circuit_open_503 (b : Breaker) (now : Nat)
    (call : CallOutcome) (n : Nat)
    (h : (execute b now call n).2.2 = n) :
    (execute b now call n).1 = ErrVal.errOpenState
    ∧ handleCheckoutStatus (execute b now call n).1 = 503
    ∧ handleCheckoutStatus (execute b now call n).1 ≠ 502 := by
  have key : (execute b now call n).1 = ErrVal.errOpenState := by
    cases call <;> simp only [execute] at h ⊢ <;>
      split_ifs at h ⊢ <;> simp_all
  exact ⟨key, by rw [key]; decide, by rw [key]; decide⟩

/-- Witness for C4 at a concrete input: a freshly opened breaker queried at
time 0 denies the call (the invocation count 0 is unchanged). -/
theorem execute_denied_is_circuit_open_503_witness :
    (execute openBreaker 0 CallOutcome.success 0).1 = ErrVal.errOpenState
    ∧ handleCheckoutStatus (execute openBreaker 0 CallOutcome.success 0).1
        = 503
    ∧ handleCheckoutStatus (execute openBreaker 0 CallOutcome.success 0).1
        ≠ 502 :=
  execute_denied_is_circuit_open_503 openBreaker 0 CallOutcome.success 0 rfl

/-- C5: for a non-empty latency history, `calculatePercentile` sorts the
latencies ascending and returns the element at index
`floor(count * percentile)` clamped to `count - 1` (nearest-rank, no
interpolation); for the history [10, 20, 30, 40, 50], p50 = 30 and
p95 = 50 (index `floor(5 * 0.95) = 4`); for an empty history it returns 0. -/
theorem calculatePercentile_nearest_rank (l : List Nat) (p : ℚ)
    (hl : l ≠ []) :
    calculatePercentile l p
      = (List.insertionSort (fun a b => a ≤ b) l).getD
          (min (⌊(l.length : ℚ) * p⌋).toNat (l.length - 1)) 0
    ∧ calculatePercentile [] p = 0
    ∧ calculatePercentile [10, 20, 30, 40, 50] (0.50 : ℚ) = 30
    ∧ calculatePercentile [10, 20, 30, 40, 50] (0.95 : ℚ) = 50
    ∧ calculatePercentile [10, 20, 30, 40, 50] (0.99 : ℚ) = 50 := by
  refine ⟨?_, ?_, ?_, ?_, ?_⟩
  · have hn : 0 < l.length := List.length_pos.mpr hl
    have hlen : (List.insertionSort (fun a b => a ≤ b) l).length = l.length :=
      (List.perm_insertionSort _ l).length_eq
    simp only [calculatePercentile, calculatePercentileRun]
    rw [if_neg hl]
    simp only [hlen, int_floor_eq_rat_floor]
    congr 1
    split_ifs with h <;> omega
  · rfl
  all_goals
    simp [calculatePercentile, calculatePercentileRun, List.insertionSort,
          List.orderedInsert]
  all_goals norm_num [Rat.floor_def']
  all_goals rfl

/-- Witness for C5 at a concrete input: the five-element history
[10, 20, 30, 40, 50] at the 95th percentile. -/
theorem calculatePercentile_nearest_rank_witness :
    (calculatePercentile [10, 20, 30, 40, 50] (0.95 : ℚ)
      = (List.insertionSort (fun a b => a ≤ b) [10, 20, 30, 40, 50]).getD
          (min (⌊(([10, 20, 30, 40, 50] : List Nat).length : ℚ)
              * (0.95 : ℚ)⌋).toNat
            (([10, 20, 30, 40, 50] : List Nat).length - 1)) 0)
    ∧ calculatePercentile [] (0.95 : ℚ) = 0
    ∧ calculatePercentile [10, 20, 30, 40, 50] (0.50 : ℚ) = 30
    ∧ calculatePercentile [10, 20, 30, 40, 50] (0.95 : ℚ) = 50
    ∧ calculatePercentile [10, 20, 30, 40, 50] (0.99 : ℚ) = 50 :=
  calculatePercentile_nearest_rank [10, 20, 30, 40, 50] (0.95 : ℚ) (by decide)
